import Mathlib

/-!
# Verification of the digital-twin counter's admission and mutation layer

Shallow embedding of `convex/security.ts` and `convex/counter.ts` (plus the
admin session mutations of the admin module).  JavaScript numbers are
modelled as `ℚ` (timestamps, violation counts, request counts), counter
values as `ℤ`, and stored versions as `ℕ`.  JavaScript truthiness tests on
numbers and strings (`if (args.name)`, `!session.lastActivity`,
`session.blockUntil && ...`) are translated explicitly: a number is truthy
iff it is nonzero, a string iff it is nonempty, an optional iff it is
present and its payload is truthy.  Database reads and writes on the single
session record and the single counter record addressed by a request are
modelled by explicit state passing.
-/

set_option maxRecDepth 8000

namespace DigitalTwin

/-! ## Constants (security.ts lines 4-17) -/

def RATE_LIMIT_WINDOW : ℚ := 10000
def MAX_REQUESTS : ℚ := 100
def RATE_LIMIT_DELAY : ℚ := 100
def BLOCK_DURATION_BASE : ℚ := 60000
def VIOLATION_THRESHOLD : ℚ := 5
def MAX_COUNTER_VALUE : ℤ := 1000000
def MIN_COUNTER_VALUE : ℤ := -1000000
def MAX_COUNTER_NAME_LENGTH : ℕ := 50
def AUTOMATION_DETECTION_THRESHOLD : ℚ := 50
def MAX_BLOCK_DURATION : ℚ := 86400000

/-- Whitelist of counter names (security.ts line 17). -/
def VALID_COUNTER_NAMES : List String := ["global-counter"]

/-! ## Data model (schema.ts) -/

/-- A `userSessions` record (schema.ts). -/
structure Session where
  lastActivity : ℚ
  requestCount : ℚ
  windowStart : ℚ
  violationCount : ℚ
  isBlocked : Bool
  blockUntil : Option ℚ
  createdAt : ℚ
deriving DecidableEq, Repr

/-- A `counters` record (schema.ts). -/
structure CounterRecord where
  name : String
  value : ℤ
  lastUpdated : ℚ
  version : ℕ
  lastModifiedBy : Option String
deriving DecidableEq, Repr

/-- Event types written to `securityEvents`. -/
inductive EventType
  | rate_limit | ddos_attempt | automation_detected | invalid_input
  | blocked_access_attempt | blocked | admin_block | admin_unblock
deriving DecidableEq, Repr

/-- Severities of security events. -/
inductive Severity
  | low | medium | high | critical
deriving DecidableEq, Repr

/-- A `securityEvents` record, reduced to the fields the claims speak
about (event type and severity). -/
structure SecurityEvent where
  eventType : EventType
  severity : Severity
deriving DecidableEq, Repr

/-- Result codes written to `requestAudit` entries. -/
inductive ResultCode
  | success | blocked | rate_limited | invalid_input
  | version_mismatch | value_out_of_range | counter_not_found
deriving DecidableEq, Repr

/-- The arguments of a mutating request (`{ name, expectedVersion }`).
`name : Option String` models a possibly-absent `args.name`;
`expectedVersion : Option ℤ` models a possibly-absent `args.expectedVersion`
(the `Number.isInteger` part of `validateVersion` is absorbed by the `ℤ`
type). -/
structure Args where
  name : Option String
  expectedVersion : Option ℤ
deriving DecidableEq, Repr

/-! ## Pure validators (security.ts lines 20-71) -/

/-- `validateCounterName` (security.ts lines 20-39): returns `some error`
when invalid, `none` when valid, checking in source order: empty, too
long, not whitelisted, injection characters.  The injection characters are
`<ANGLE> <QUOTE 34> <APOSTROPHE 39> & <BACKSLASH 92>`, written through
`Char.ofNat` for the quote, apostrophe and backslash. -/
def validateCounterName (name : String) : Option String :=
  if name = "" then some "Counter name must be a non-empty string"
  else if name.length > MAX_COUNTER_NAME_LENGTH then some "Counter name too long"
  else if ¬ VALID_COUNTER_NAMES.contains name then some "Invalid counter name"
  else if name.toList.any (fun c =>
      c == '<' || c == '>' || c == Char.ofNat 34 || c == Char.ofNat 39 ||
      c == '&' || c == Char.ofNat 92) then
    some "Invalid characters in counter name"
  else none

/-- `validateVersion` (security.ts lines 53-59): a version is valid iff it
is a non-negative integer. -/
def validateVersion (version : ℤ) : Bool := decide (0 ≤ version)

/-- JS truthiness of `args.name`: present and nonempty. -/
def nameTruthy : Option String → Bool
  | none => false
  | some s => s != ""

/-- JS truthiness of `session.blockUntil`: present and nonzero. -/
def blockUntilTruthy : Option ℚ → Bool
  | none => false
  | some t => t != 0

/-- The guard of security.ts line 106-117: `args.expectedVersion` is
present and fails `validateVersion`. -/
def expectedVersionInvalid : Option ℤ → Bool
  | none => false
  | some v => ! validateVersion v

/-- `detectAutomation` (security.ts lines 61-66).  `!session.lastActivity`
is JS truthiness on a number: a zero `lastActivity` disables the check. -/
def detectAutomation (session : Session) (currentTime : ℚ) : Bool :=
  if session.lastActivity = 0 then false
  else decide (currentTime - session.lastActivity < AUTOMATION_DETECTION_THRESHOLD)

/-- `Math.max` on two rationals, written as the conditional it is in JS so
that concrete runs reduce in the kernel; `jsMax_eq_max` identifies it with
`max`. -/
def jsMax (a b : ℚ) : ℚ := if a ≤ b then b else a

/-- `Math.min` on two rationals, as a conditional; `jsMin_eq_min`
identifies it with `min`. -/
def jsMin (a b : ℚ) : ℚ := if a ≤ b then a else b

/-- `Math.pow(2, e)` at the exponents this program produces.  On integer
exponents (every exponent any theorem below touches) this is exactly
`2 ^ e`; on a fractional exponent the JS value is irrational and has no
rational representative, so the exponent is floored — no statement in this
file depends on that case. -/
def pow2floor (e : ℚ) : ℚ := (2 : ℚ) ^ ⌊e⌋

/-- `calculateBlockDuration` (security.ts lines 68-71):
`min(60000 * 2 ^ (violationCount - 5), 86400000)`. -/
def calculateBlockDuration (violationCount : ℚ) : ℚ :=
  jsMin (BLOCK_DURATION_BASE * pow2floor (violationCount - VIOLATION_THRESHOLD))
    MAX_BLOCK_DURATION

/-- `inputValid args` holds iff neither of the two input-validation guards
of `validateAndEnforceSecurity` (security.ts lines 93-117) fires. -/
def inputValid (args : Args) : Bool :=
  !(nameTruthy args.name && (validateCounterName (args.name.getD "")).isSome) &&
  ! expectedVersionInvalid args.expectedVersion

/-! ## The admission controller (security.ts lines 88-297) -/

/-- What one call of `validateAndEnforceSecurity` leaves behind:
`outcome = none` means the request proceeds; `outcome = some r` means the
request was rejected (an exception was thrown) and audited with result
code `r`.  `session` is the session record stored in the database when the
call returns, `events` the `securityEvents` rows appended, `audits` the
result codes of the `requestAudit` rows appended, in order. -/
structure AdmissionResult where
  outcome : Option ResultCode
  session : Option Session
  events : List SecurityEvent
  audits : List ResultCode
deriving DecidableEq, Repr

/-- The fresh session record inserted for an unseen session id
(security.ts lines 126-141). -/
def freshSession (currentTime : ℚ) : Session :=
  { lastActivity := currentTime, requestCount := 1, windowStart := currentTime,
    violationCount := 0, isBlocked := false, blockUntil := none,
    createdAt := currentTime }

/-- Security.ts lines 166-296: evaluation once the block check is past.
`db1` is the session record as currently stored in the database (it
carries the unblock patch of lines 157-164 when one happened); `session1`
is the in-memory `session` variable — after an unblock it is the spread
`{ ...session, isBlocked: false, blockUntil: undefined }`, which does NOT
carry the decremented violation count.  Each branch reproduces exactly the
fields its `ctx.db.patch` call writes. -/
def evalSession (db1 session1 : Session) (currentTime : ℚ) : AdmissionResult :=
  -- lines 166-171: reset the rate-limiting window if expired
  let windowExpired := RATE_LIMIT_WINDOW < currentTime - session1.windowStart
  let requestCount0 := if windowExpired then 0 else session1.requestCount
  let windowStart0 := if windowExpired then currentTime else session1.windowStart
  -- lines 173-208: automation detection
  if detectAutomation session1 currentTime then
    let violationCount := session1.violationCount + 1
    if VIOLATION_THRESHOLD ≤ violationCount then
      { outcome := some .blocked,
        session := some
          { db1 with
            isBlocked := true,
            blockUntil := some (currentTime + calculateBlockDuration violationCount),
            violationCount := violationCount,
            lastActivity := currentTime },
        events := [⟨.automation_detected, .high⟩, ⟨.blocked, .critical⟩],
        audits := [.blocked] }
    else
      { outcome := some .rate_limited,
        session := some
          { db1 with
            violationCount := violationCount,
            lastActivity := currentTime },
        events := [⟨.automation_detected, .high⟩],
        audits := [.rate_limited] }
  -- lines 210-245: rate limiting
  else if currentTime - session1.lastActivity < RATE_LIMIT_DELAY then
    let violationCount := session1.violationCount + 1
    if VIOLATION_THRESHOLD ≤ violationCount then
      { outcome := some .blocked,
        session := some
          { db1 with
            isBlocked := true,
            blockUntil := some (currentTime + calculateBlockDuration violationCount),
            violationCount := violationCount,
            lastActivity := currentTime },
        events := [⟨.rate_limit, .medium⟩, ⟨.blocked, .high⟩],
        audits := [.blocked] }
    else
      { outcome := some .rate_limited,
        session := some
          { db1 with
            violationCount := violationCount,
            lastActivity := currentTime },
        events := [⟨.rate_limit, .medium⟩],
        audits := [.rate_limited] }
  else
    -- line 247
    let requestCount1 := requestCount0 + 1
    -- lines 249-286: DDoS protection
    if MAX_REQUESTS < requestCount1 then
      let violationCount := session1.violationCount + 1
      if VIOLATION_THRESHOLD ≤ violationCount then
        { outcome := some .blocked,
          session := some
            { db1 with
              isBlocked := true,
              blockUntil := some (currentTime + calculateBlockDuration violationCount),
              violationCount := violationCount,
              lastActivity := currentTime },
          events := [⟨.ddos_attempt, .critical⟩, ⟨.blocked, .critical⟩],
          audits := [.blocked] }
      else
        { outcome := some .rate_limited,
          session := some
            { db1 with
              requestCount := requestCount1,
              violationCount := violationCount,
              lastActivity := currentTime },
          events := [⟨.ddos_attempt, .critical⟩],
          audits := [.rate_limited] }
    else
      -- lines 288-296: clean request, decay the violation count
      { outcome := none,
        session := some
          { db1 with
            requestCount := requestCount1,
            windowStart := windowStart0,
            lastActivity := currentTime,
            violationCount := jsMax 0 (session1.violationCount - 1/10) },
        events := [], audits := [] }

/-- Security.ts lines 144-296 for an existing session: block check,
unblock transition, then `evalSession`.  On unblock the database record
gets `violationCount := max 0 (v - 1)` (line 161) while the in-memory
session keeps the old count — the spread on line 163 copies `isBlocked`
and `blockUntil` only. -/
def admitExisting (session : Session) (currentTime : ℚ) : AdmissionResult :=
  if session.isBlocked ∧ blockUntilTruthy session.blockUntil ∧
      currentTime < session.blockUntil.getD 0 then
    { outcome := some .blocked, session := some session,
      events := [⟨.blocked_access_attempt, .high⟩], audits := [.blocked] }
  else if session.isBlocked ∧
      (¬ blockUntilTruthy session.blockUntil ∨ session.blockUntil.getD 0 ≤ currentTime) then
    evalSession
      { session with
        isBlocked := false,
        blockUntil := none,
        violationCount := jsMax 0 (session.violationCount - 1) }
      { session with isBlocked := false, blockUntil := none }
      currentTime
  else
    evalSession session session currentTime

/-- `validateAndEnforceSecurity` (security.ts lines 88-297).
`session0` is the stored session record for the requesting session id
(`none` for an unseen id). -/
def validateAndEnforceSecurity (args : Args) (session0 : Option Session)
    (currentTime : ℚ) : AdmissionResult :=
  if nameTruthy args.name && (validateCounterName (args.name.getD "")).isSome then
    { outcome := some .invalid_input, session := session0,
      events := [⟨.invalid_input, .medium⟩], audits := [.invalid_input] }
  else if expectedVersionInvalid args.expectedVersion then
    { outcome := some .invalid_input, session := session0,
      events := [⟨.invalid_input, .medium⟩], audits := [.invalid_input] }
  else
    match session0 with
    | none =>
      { outcome := none, session := some (freshSession currentTime),
        events := [], audits := [] }
    | some session => admitExisting session currentTime

/-! ## The counter mutation engine (counter.ts) -/

/-- Outcome of a counter mutation's business logic. -/
inductive CounterOutcome
  | ok (record : CounterRecord)
  | versionMismatch (expected : ℤ) (actual : ℕ)
  | valueOutOfRange
  | notFound
deriving DecidableEq, Repr

/-- Result of a counter mutation's business logic: its outcome, the
counter record stored under the requested name afterwards, and the result
code of the one `requestAudit` row it appends. -/
structure CounterResult where
  outcome : CounterOutcome
  store : Option CounterRecord
  audit : ResultCode
deriving DecidableEq, Repr

/-- The guard of counter.ts line 93 / 204:
`args.expectedVersion !== undefined && counter.version !== args.expectedVersion`. -/
def versionDiffers (expectedVersion : Option ℤ) (storedVersion : ℕ) : Bool :=
  match expectedVersion with
  | none => false
  | some ev => decide ((storedVersion : ℤ) ≠ ev)

/-- `incrementCounter` business logic (counter.ts lines 55-148), run once
`validateAndEnforceSecurity` has approved the request.  `store` is the
counter record stored under `args.name` (`none` if absent). -/
def incrementCounterLogic (args : Args) (sessionId : String)
    (store : Option CounterRecord) (now : ℚ) : CounterResult :=
  match store with
  | none =>
    let rec0 : CounterRecord :=
      { name := args.name.getD "", value := 1, lastUpdated := now,
        version := 1, lastModifiedBy := some sessionId }
    { outcome := .ok rec0, store := some rec0, audit := .success }
  | some counter =>
    if versionDiffers args.expectedVersion counter.version then
      { outcome := .versionMismatch (args.expectedVersion.getD 0) counter.version,
        store := some counter, audit := .version_mismatch }
    else
      let newValue := counter.value + 1
      if newValue > MAX_COUNTER_VALUE ∨ newValue < MIN_COUNTER_VALUE then
        { outcome := .valueOutOfRange, store := some counter,
          audit := .value_out_of_range }
      else
        let rec1 : CounterRecord :=
          { counter with
            value := newValue,
            lastUpdated := now,
            version := counter.version + 1,
            lastModifiedBy := some sessionId }
        { outcome := .ok rec1, store := some rec1, audit := .success }

/-- `decrementCounter` business logic (counter.ts lines 166-259). -/
def decrementCounterLogic (args : Args) (sessionId : String)
    (store : Option CounterRecord) (now : ℚ) : CounterResult :=
  match store with
  | none =>
    let rec0 : CounterRecord :=
      { name := args.name.getD "", value := -1, lastUpdated := now,
        version := 1, lastModifiedBy := some sessionId }
    { outcome := .ok rec0, store := some rec0, audit := .success }
  | some counter =>
    if versionDiffers args.expectedVersion counter.version then
      { outcome := .versionMismatch (args.expectedVersion.getD 0) counter.version,
        store := some counter, audit := .version_mismatch }
    else
      let newValue := counter.value - 1
      if newValue > MAX_COUNTER_VALUE ∨ newValue < MIN_COUNTER_VALUE then
        { outcome := .valueOutOfRange, store := some counter,
          audit := .value_out_of_range }
      else
        let rec1 : CounterRecord :=
          { counter with
            value := newValue,
            lastUpdated := now,
            version := counter.version + 1,
            lastModifiedBy := some sessionId }
        { outcome := .ok rec1, store := some rec1, audit := .success }

/-- `resetCounter` business logic (counter.ts lines 276-322): hard failure
on an absent counter, otherwise set the value to 0 and bump the version
(it takes no expected version and performs no range check). -/
def resetCounterLogic (sessionId : String) (store : Option CounterRecord)
    (now : ℚ) : CounterResult :=
  match store with
  | none =>
    { outcome := .notFound, store := none, audit := .counter_not_found }
  | some counter =>
    let rec1 : CounterRecord :=
      { counter with
        value := 0,
        lastUpdated := now,
        version := counter.version + 1,
        lastModifiedBy := some sessionId }
    { outcome := .ok rec1, store := some rec1, audit := .success }

/-- A full mutation call: the admission result, the counter store
afterwards, and — when the business logic ran at all — its outcome and
audit code. -/
structure FullOpResult where
  admission : AdmissionResult
  store : Option CounterRecord
  counterOutcome : Option CounterOutcome
  counterAudit : Option ResultCode
deriving DecidableEq, Repr

/-- `incrementCounter` (counter.ts lines 42-150): admission first; if the
admission controller throws, the business logic never runs and the counter
store is untouched. -/
def incrementCounter (args : Args) (sessionId : String)
    (session0 : Option Session) (store : Option CounterRecord) (now : ℚ) :
    FullOpResult :=
  let adm := validateAndEnforceSecurity args session0 now
  match adm.outcome with
  | some _ => { admission := adm, store := store, counterOutcome := none,
                counterAudit := none }
  | none =>
    let r := incrementCounterLogic args sessionId store now
    { admission := adm, store := r.store, counterOutcome := some r.outcome,
      counterAudit := some r.audit }

/-- `decrementCounter` (counter.ts lines 153-261). -/
def decrementCounter (args : Args) (sessionId : String)
    (session0 : Option Session) (store : Option CounterRecord) (now : ℚ) :
    FullOpResult :=
  let adm := validateAndEnforceSecurity args session0 now
  match adm.outcome with
  | some _ => { admission := adm, store := store, counterOutcome := none,
                counterAudit := none }
  | none =>
    let r := decrementCounterLogic args sessionId store now
    { admission := adm, store := r.store, counterOutcome := some r.outcome,
      counterAudit := some r.audit }

/-- `resetCounter` (counter.ts lines 264-323). -/
def resetCounter (args : Args) (sessionId : String)
    (session0 : Option Session) (store : Option CounterRecord) (now : ℚ) :
    FullOpResult :=
  let adm := validateAndEnforceSecurity args session0 now
  match adm.outcome with
  | some _ => { admission := adm, store := store, counterOutcome := none,
                counterAudit := none }
  | none =>
    let r := resetCounterLogic sessionId store now
    { admission := adm, store := r.store, counterOutcome := some r.outcome,
      counterAudit := some r.audit }

/-- `getCounter` (counter.ts lines 6-16): a read-only query; on an absent
record it returns a synthetic `{ name, value: 0, lastUpdated: Date.now(),
version: 0 }` and leaves the store as it was (the second component). -/
def getCounter (name : String) (store : Option CounterRecord) (now : ℚ) :
    CounterRecord × Option CounterRecord :=
  (store.getD { name := name, value := 0, lastUpdated := now, version := 0,
                lastModifiedBy := none }, store)

/-! ## Session-state operations for the violation-count invariant -/

/-- One operation touching a session record: an admission evaluation, the
admin `blockSession` mutation, or the admin `unblockSession` mutation. -/
inductive SessionOp
  | request (args : Args) (now : ℚ)
  | adminBlock (duration : ℚ) (now : ℚ)
  | adminUnblock
deriving DecidableEq, Repr

/-- Apply one operation to the stored session record.  `request` runs
`validateAndEnforceSecurity`; `adminBlock` is the admin module's
`blockSession` (sets `isBlocked`, `blockUntil := now + duration`,
`violationCount := v + 1`; no-op on a missing session); `adminUnblock` is
`unblockSession` (clears the block and zeroes the violation count). -/
def applySessionOp (s : Option Session) : SessionOp → Option Session
  | .request args now => (validateAndEnforceSecurity args s now).session
  | .adminBlock duration now =>
    match s with
    | none => none
    | some ss => some
        { ss with
          isBlocked := true,
          blockUntil := some (now + duration),
          violationCount := ss.violationCount + 1 }
  | .adminUnblock =>
    match s with
    | none => none
    | some ss => some
        { ss with
          isBlocked := false,
          blockUntil := none,
          violationCount := 0 }

/-- Fold a list of operations over an initially absent session record. -/
def applySessionOps (ops : List SessionOp) : Option Session :=
  ops.foldl applySessionOp none

/-- The counter-record value invariant. -/
def valueInRange (c : CounterRecord) : Prop :=
  MIN_COUNTER_VALUE ≤ c.value ∧ c.value ≤ MAX_COUNTER_VALUE


/-! ## Helper lemmas -/

theorem jsMin_eq_min (a b : ℚ) : jsMin a b = min a b := by
  rw [jsMin, min_def]

theorem jsMax_eq_max (a b : ℚ) : jsMax a b = max a b := by
  rw [jsMax, max_def]

theorem jsMax_zero_nonneg (x : ℚ) : 0 ≤ jsMax 0 x := by
  unfold jsMax
  split_ifs with h
  · exact h
  · exact le_refl 0

theorem validateCounterName_global : validateCounterName "global-counter" = none := by
  decide

theorem inputValid_iff (args : Args) :
    inputValid args = true ↔
      (nameTruthy args.name && (validateCounterName (args.name.getD "")).isSome) = false ∧
      expectedVersionInvalid args.expectedVersion = false := by
  unfold inputValid
  constructor
  · intro h
    simp only [Bool.and_eq_true, Bool.not_eq_true'] at h
    exact h
  · intro h
    simp only [Bool.and_eq_true, Bool.not_eq_true']
    exact h

/-- With valid input, the admission controller reaches the per-session
logic. -/
theorem security_reduces_to_admitExisting (args : Args) (s : Session) (now : ℚ)
    (hv : inputValid args = true) :
    validateAndEnforceSecurity args (some s) now = admitExisting s now := by
  obtain ⟨h1, h2⟩ := (inputValid_iff args).mp hv
  unfold validateAndEnforceSecurity
  rw [h1, h2]
  simp

/-- With valid input and a non-blocked session, the admission controller
is exactly the post-block evaluation on the unmodified session. -/
theorem security_active (args : Args) (s : Session) (now : ℚ)
    (hv : inputValid args = true) (hb : s.isBlocked = false) :
    validateAndEnforceSecurity args (some s) now = evalSession s s now := by
  rw [security_reduces_to_admitExisting args s now hv]
  unfold admitExisting
  rw [hb]
  simp

/-- Every session record written by `evalSession` has a non-negative
violation count, provided the in-memory session's count was. -/
theorem evalSession_violation_nonneg (db1 session1 : Session) (t : ℚ)
    (h : 0 ≤ session1.violationCount) :
    ∀ u, (evalSession db1 session1 t).session = some u → 0 ≤ u.violationCount := by
  intro u hu
  dsimp only [evalSession] at hu
  split_ifs at hu <;>
    simp only [Option.some.injEq] at hu <;>
    subst hu <;>
    simp only [] <;>
    first
      | linarith
      | exact jsMax_zero_nonneg _

/-- `evalSession` never logs a `blocked_access_attempt` event. -/
theorem evalSession_no_blocked_access (db1 session1 : Session) (t : ℚ) :
    ∀ e ∈ (evalSession db1 session1 t).events,
      e.eventType ≠ EventType.blocked_access_attempt := by
  intro e he
  dsimp only [evalSession] at he
  split_ifs at he <;> fin_cases he <;> decide

/-- Every session record written by `admitExisting` has a non-negative
violation count, provided the stored one did. -/
theorem admitExisting_violation_nonneg (s : Session) (now : ℚ)
    (h : 0 ≤ s.violationCount) :
    ∀ u, (admitExisting s now).session = some u → 0 ≤ u.violationCount := by
  intro u hu
  unfold admitExisting at hu
  split_ifs at hu
  · simp only [Option.some.injEq] at hu
    subst hu
    exact h
  · exact evalSession_violation_nonneg _ _ _ (by simpa using h) u hu
  · exact evalSession_violation_nonneg _ _ _ h u hu

/-- Every session record written by the admission controller has a
non-negative violation count, provided the stored one did. -/
theorem security_violation_nonneg (args : Args) (s0 : Option Session) (now : ℚ)
    (h : ∀ t, s0 = some t → 0 ≤ t.violationCount) :
    ∀ u, (validateAndEnforceSecurity args s0 now).session = some u →
      0 ≤ u.violationCount := by
  intro u hu
  unfold validateAndEnforceSecurity at hu
  split_ifs at hu
  · exact h u hu
  · exact h u hu
  · cases s0 with
    | none =>
      simp only [Option.some.injEq] at hu
      subst hu
      simp [freshSession]
    | some ss => exact admitExisting_violation_nonneg ss now (h ss rfl) u hu

/-- Each session operation preserves non-negativity of the stored
violation count. -/
theorem applySessionOp_violation_nonneg (s0 : Option Session) (op : SessionOp)
    (h : ∀ t, s0 = some t → 0 ≤ t.violationCount) :
    ∀ u, applySessionOp s0 op = some u → 0 ≤ u.violationCount := by
  cases op with
  | request args now => exact security_violation_nonneg args s0 now h
  | adminBlock d now =>
    cases s0 with
    | none => intro u hu; simp [applySessionOp] at hu
    | some ss =>
      intro u hu
      simp only [applySessionOp, Option.some.injEq] at hu
      subst hu
      have := h ss rfl
      simp only []
      linarith
  | adminUnblock =>
    cases s0 with
    | none => intro u hu; simp [applySessionOp] at hu
    | some ss =>
      intro u hu
      simp only [applySessionOp, Option.some.injEq] at hu
      subst hu
      simp

/-- With invalid input, the admission controller rejects with
`invalid_input` before touching the session. -/
theorem security_invalid (args : Args) (s0 : Option Session) (now : ℚ)
    (hv : inputValid args = false) :
    validateAndEnforceSecurity args s0 now =
      { outcome := some .invalid_input, session := s0,
        events := [⟨.invalid_input, .medium⟩], audits := [.invalid_input] } := by
  unfold validateAndEnforceSecurity
  split_ifs with h1 h2
  · rfl
  · rfl
  · exfalso
    rw [Bool.not_eq_true] at h1 h2
    rw [inputValid, h1, h2] at hv
    simp at hv

/-! ## Claims -/

/-- **C10.** For every name with no stored counter record, `getCounter`
returns a synthetic record with the requested name, value 0 and version 0
instead of an error, and writes nothing to storage: the absent counter
remains absent afterwards. -/
theorem c10_getCounter_absent :
    ∀ (name : String) (now : ℚ),
      getCounter name none now =
        ({ name := name, value := 0, lastUpdated := now, version := 0,
           lastModifiedBy := none }, none) :=
  fun _ _ => rfl

/-- **C5.** On an absent counter (admission having succeeded, so the
business logic runs): `incrementCounter` creates and returns a record with
value 1 and version 1, `decrementCounter` creates and returns one with
value −1 and version 1, and `resetCounter` fails with a not-found error,
audits `counter_not_found`, and creates no record. -/
theorem c5_absent_counter :
    ∀ (args : Args) (sid : String) (now : ℚ),
      incrementCounterLogic args sid none now =
        { outcome := .ok
            { name := args.name.getD "",
              value := 1,
              lastUpdated := now,
              version := 1,
              lastModifiedBy := some sid },
          store := some
            { name := args.name.getD "",
              value := 1,
              lastUpdated := now,
              version := 1,
              lastModifiedBy := some sid },
          audit := .success } ∧
      decrementCounterLogic args sid none now =
        { outcome := .ok
            { name := args.name.getD "",
              value := -1,
              lastUpdated := now,
              version := 1,
              lastModifiedBy := some sid },
          store := some
            { name := args.name.getD "",
              value := -1,
              lastUpdated := now,
              version := 1,
              lastModifiedBy := some sid },
          audit := .success } ∧
      resetCounterLogic sid none now =
        { outcome := .notFound, store := none, audit := .counter_not_found } :=
  fun _ _ _ => ⟨rfl, rfl, rfl⟩

/-- **C2 (amended).** For every violation count `v ≥ 5` the block duration
is `min(60000 * 2 ^ (v - 5), 86400000)` milliseconds; v=5 gives 60000 ms,
v=6 gives 120000 ms, v=10 gives 1920000 ms (not the 960000 ms the claim
named), and v=30 hits the 86400000 ms cap. -/
theorem c2_block_duration :
    (∀ v : ℕ, 5 ≤ v →
      calculateBlockDuration (v : ℚ) =
        min ((60000 : ℚ) * 2 ^ (v - 5)) 86400000) ∧
    calculateBlockDuration 5 = 60000 ∧
    calculateBlockDuration 6 = 120000 ∧
    calculateBlockDuration 10 = 1920000 ∧
    calculateBlockDuration 30 = 86400000 := by
  have hgen : ∀ v : ℕ, 5 ≤ v →
      calculateBlockDuration (v : ℚ) =
        min ((60000 : ℚ) * 2 ^ (v - 5)) 86400000 := by
    intro v hv
    unfold calculateBlockDuration pow2floor BLOCK_DURATION_BASE VIOLATION_THRESHOLD
      MAX_BLOCK_DURATION
    rw [jsMin_eq_min]
    have h1 : ((v : ℚ) - 5) = (((v : ℤ) - 5 : ℤ) : ℚ) := by push_cast; ring
    rw [h1, Int.floor_intCast]
    have h2 : (v : ℤ) - 5 = ((v - 5 : ℕ) : ℤ) := by omega
    rw [h2, zpow_natCast]
  refine ⟨hgen, ?_, ?_, ?_, ?_⟩ <;>
    · unfold calculateBlockDuration pow2floor BLOCK_DURATION_BASE VIOLATION_THRESHOLD
        MAX_BLOCK_DURATION jsMin
      norm_num

/-- **C2, counterexample to the claim as stated.** The claim asserts that
v=10 yields 960000 ms; the code's `calculateBlockDuration` yields
`min(60000 * 2^5, 86400000) = 1920000` ms. -/
theorem c2_v10_counterexample :
    calculateBlockDuration 10 = 1920000 ∧ (1920000 : ℚ) ≠ 960000 := by
  constructor
  · unfold calculateBlockDuration pow2floor BLOCK_DURATION_BASE VIOLATION_THRESHOLD
      MAX_BLOCK_DURATION jsMin
    norm_num
  · norm_num

/-- **C2, witness.** The general formula applied at v=7: 240000 ms. -/
theorem c2_block_duration_witness :
    5 ≤ 7 ∧ calculateBlockDuration ((7 : ℕ) : ℚ) = 240000 := by
  refine ⟨by norm_num, ?_⟩
  rw [c2_block_duration.1 7 (by norm_num)]
  norm_num

/-- **C1 (code bug).** A session with violationCount 3, blocked until time
1000, makes a clean request at time 20000.  The unblock patch writes
violationCount 2 to the database, but the in-memory spread keeps 3, and
the clean path's final patch persists `max(0, 3 - 0.1) = 2.9` — not the
`max(0, 2 - 0.1) = 1.9` that the claim (evaluation continues with the
decremented count) requires.  The decrement is lost in the same request. -/
theorem c1_unblock_decrement_lost :
    (validateAndEnforceSecurity ⟨some "global-counter", none⟩
        (some ⟨500, 1, 500, 3, true, some 1000, 0⟩) 20000).outcome = none ∧
    (validateAndEnforceSecurity ⟨some "global-counter", none⟩
        (some ⟨500, 1, 500, 3, true, some 1000, 0⟩) 20000).session =
      some ⟨20000, 1, 20000, 29/10, false, none, 0⟩ ∧
    jsMax 0 ((3 - 1 : ℚ) - 1/10) = 19/10 ∧
    (29/10 : ℚ) ≠ 19/10 := by
  refine ⟨?_, ?_, ?_, by norm_num⟩
  · norm_num [validateAndEnforceSecurity, admitExisting, evalSession, detectAutomation,
      blockUntilTruthy, nameTruthy, validateCounterName_global, expectedVersionInvalid,
      jsMax, RATE_LIMIT_WINDOW, RATE_LIMIT_DELAY, MAX_REQUESTS,
      AUTOMATION_DETECTION_THRESHOLD, VIOLATION_THRESHOLD]
  · norm_num [validateAndEnforceSecurity, admitExisting, evalSession, detectAutomation,
      blockUntilTruthy, nameTruthy, validateCounterName_global, expectedVersionInvalid,
      jsMax, RATE_LIMIT_WINDOW, RATE_LIMIT_DELAY, MAX_REQUESTS,
      AUTOMATION_DETECTION_THRESHOLD, VIOLATION_THRESHOLD]
  · norm_num [jsMax]


/-- **C3, counterexample to the claim as stated.** An empty counter name
fails `validateCounterName`, yet the admission layer does not reject it:
the guard `if (args.name)` treats the empty string as falsy and skips name
validation entirely, so the request proceeds (and even creates a session)
with no `invalid_input` event. -/
theorem c3_empty_name_admitted :
    (validateCounterName "").isSome = true ∧
    (validateAndEnforceSecurity ⟨some "", none⟩ none 1000).outcome = none ∧
    (validateAndEnforceSecurity ⟨some "", none⟩ none 1000).events = [] ∧
    (validateAndEnforceSecurity ⟨some "", none⟩ none 1000).session =
      some (freshSession 1000) := by
  refine ⟨by decide, ?_, ?_, ?_⟩ <;> decide

/-- **C3 (amended).** For every request whose counter name is present and
non-empty but fails validation (too long, not whitelisted, or containing
forbidden characters), the admission layer rejects it with result
`invalid_input`, logs exactly one medium-severity `invalid_input` security
event, and aborts before any session record or counter record is read or
modified.  (An absent or empty name bypasses name validation because of
the truthiness guard `if (args.name)`.) -/
theorem c3_invalid_name_rejected :
    ∀ (args : Args) (sid : String) (s0 : Option Session)
      (store : Option CounterRecord) (now : ℚ) (nm : String),
    args.name = some nm → nm ≠ "" → (validateCounterName nm).isSome = true →
    validateAndEnforceSecurity args s0 now =
      { outcome := some .invalid_input, session := s0,
        events := [⟨.invalid_input, .medium⟩], audits := [.invalid_input] } ∧
    (incrementCounter args sid s0 store now).store = store ∧
    (incrementCounter args sid s0 store now).counterOutcome = none ∧
    (decrementCounter args sid s0 store now).store = store ∧
    (decrementCounter args sid s0 store now).counterOutcome = none ∧
    (resetCounter args sid s0 store now).store = store ∧
    (resetCounter args sid s0 store now).counterOutcome = none := by
  intro args sid s0 store now nm hname hne hval
  have hguard :
      (nameTruthy args.name && (validateCounterName (args.name.getD "")).isSome) = true := by
    rw [hname]
    simp [nameTruthy, hne, hval]
  have hsec : validateAndEnforceSecurity args s0 now =
      { outcome := some .invalid_input, session := s0,
        events := [⟨.invalid_input, .medium⟩], audits := [.invalid_input] } := by
    unfold validateAndEnforceSecurity
    rw [hguard]
    simp
  refine ⟨hsec, ?_, ?_, ?_, ?_, ?_, ?_⟩ <;>
    simp [incrementCounter, decrementCounter, resetCounter, hsec]

/-- **C3, witness.** The spec's own example `"<script>"` is rejected with
`invalid_input`. -/
theorem c3_invalid_name_rejected_witness :
    validateAndEnforceSecurity ⟨some "<script>", none⟩ none 5 =
      { outcome := some .invalid_input, session := none,
        events := [⟨.invalid_input, .medium⟩], audits := [.invalid_input] } :=
  (c3_invalid_name_rejected ⟨some "<script>", none⟩ "sess" none none 5 "<script>"
    rfl (by decide) (by decide)).1

/-- **C4.** When `expectedVersion` is supplied and differs from the stored
counter's version, increment and decrement fail with a version-mismatch
error carrying the expected and actual versions, write one audit entry
with result `version_mismatch`, and leave the counter record unchanged;
retrying against the resulting store with the same stale `expectedVersion`
fails identically instead of applying the mutation. -/
theorem c4_version_mismatch :
    ∀ (args : Args) (sid : String) (counter : CounterRecord) (now : ℚ) (ev : ℤ),
    args.expectedVersion = some ev → ev ≠ (counter.version : ℤ) →
    incrementCounterLogic args sid (some counter) now =
      { outcome := .versionMismatch ev counter.version, store := some counter,
        audit := .version_mismatch } ∧
    decrementCounterLogic args sid (some counter) now =
      { outcome := .versionMismatch ev counter.version, store := some counter,
        audit := .version_mismatch } ∧
    (incrementCounterLogic args sid
        (incrementCounterLogic args sid (some counter) now).store now).outcome =
      .versionMismatch ev counter.version ∧
    (decrementCounterLogic args sid
        (decrementCounterLogic args sid (some counter) now).store now).outcome =
      .versionMismatch ev counter.version := by
  intro args sid counter now ev hev hne
  have hd : versionDiffers (some ev) counter.version = true := by
    simp only [versionDiffers, decide_eq_true_eq]
    omega
  have h1 : incrementCounterLogic args sid (some counter) now =
      { outcome := .versionMismatch ev counter.version, store := some counter,
        audit := .version_mismatch } := by
    simp [incrementCounterLogic, hev, hd]
  have h2 : decrementCounterLogic args sid (some counter) now =
      { outcome := .versionMismatch ev counter.version, store := some counter,
        audit := .version_mismatch } := by
    simp [decrementCounterLogic, hev, hd]
  refine ⟨h1, h2, ?_, ?_⟩
  · rw [h1]
    simp only []
    rw [h1]
  · rw [h2]
    simp only []
    rw [h2]

/-- **C4, witness.** A concrete mismatch: stored version 3, expected 2. -/
theorem c4_version_mismatch_witness :
    incrementCounterLogic ⟨some "global-counter", some 2⟩ "sess"
        (some ⟨"global-counter", 5, 0, 3, none⟩) 50 =
      { outcome := .versionMismatch 2 3,
        store := some ⟨"global-counter", 5, 0, 3, none⟩,
        audit := .version_mismatch } :=
  (c4_version_mismatch ⟨some "global-counter", some 2⟩ "sess"
    ⟨"global-counter", 5, 0, 3, none⟩ 50 2 rfl (by decide)).1


/-- **C6.** For a session blocked with `blockUntil = T`: at `now < T` the
request is never admitted, and (when it passes input validation) it is
denied with result `blocked`, exactly one high-severity
`blocked_access_attempt` event, and an untouched session record; at
`now ≥ T` no `blocked_access_attempt` event is logged and (when input is
valid) the call is exactly the normal evaluation on the unblocked state. -/
theorem c6_blocked_window :
    ∀ (s : Session) (T : ℚ) (args : Args) (now : ℚ),
    s.isBlocked = true → s.blockUntil = some T → 0 ≤ now →
    ((now < T →
        (validateAndEnforceSecurity args (some s) now).outcome ≠ none ∧
        (inputValid args = true →
          validateAndEnforceSecurity args (some s) now =
            { outcome := some .blocked, session := some s,
              events := [⟨.blocked_access_attempt, .high⟩],
              audits := [.blocked] })) ∧
     (T ≤ now →
        (∀ e ∈ (validateAndEnforceSecurity args (some s) now).events,
          e.eventType ≠ .blocked_access_attempt) ∧
        (inputValid args = true →
          validateAndEnforceSecurity args (some s) now =
            evalSession
              { s with
                isBlocked := false,
                blockUntil := none,
                violationCount := jsMax 0 (s.violationCount - 1) }
              { s with isBlocked := false, blockUntil := none }
              now))) := by
  intro s T args now hb hu hn
  have hgetD : s.blockUntil.getD 0 = T := by rw [hu]; rfl
  constructor
  · intro hlt
    have hT0 : T ≠ 0 := by
      intro h
      rw [h] at hlt
      linarith
    have hT : blockUntilTruthy s.blockUntil = true := by
      rw [hu]
      simpa [blockUntilTruthy] using hT0
    have hdeny : admitExisting s now =
        { outcome := some .blocked, session := some s,
          events := [⟨.blocked_access_attempt, .high⟩],
          audits := [.blocked] } := by
      unfold admitExisting
      split_ifs with hc1 hc2
      · rfl
      · exact absurd ⟨hb, hT, hgetD ▸ hlt⟩ hc1
      · exact absurd ⟨hb, hT, hgetD ▸ hlt⟩ hc1
    constructor
    · rcases Bool.eq_false_or_eq_true (inputValid args) with hv | hv
      · rw [security_reduces_to_admitExisting args s now hv, hdeny]
        simp
      · rw [security_invalid args (some s) now hv]
        simp
    · intro hv
      rw [security_reduces_to_admitExisting args s now hv, hdeny]
  · intro hge
    have hnc : ¬ (s.isBlocked = true ∧ blockUntilTruthy s.blockUntil = true ∧
        now < s.blockUntil.getD 0) := by
      rintro ⟨-, -, h3⟩
      rw [hgetD] at h3
      linarith
    have hc2 : s.isBlocked = true ∧
        (¬ blockUntilTruthy s.blockUntil = true ∨ s.blockUntil.getD 0 ≤ now) := by
      exact ⟨hb, Or.inr (hgetD ▸ hge)⟩
    have hred : admitExisting s now =
        evalSession
          { s with
            isBlocked := false,
            blockUntil := none,
            violationCount := jsMax 0 (s.violationCount - 1) }
          { s with isBlocked := false, blockUntil := none }
          now := by
      unfold admitExisting
      rw [if_neg hnc, if_pos hc2]
    constructor
    · intro e he
      rcases Bool.eq_false_or_eq_true (inputValid args) with hv | hv
      · rw [security_reduces_to_admitExisting args s now hv, hred] at he
        exact evalSession_no_blocked_access _ _ _ e he
      · rw [security_invalid args (some s) now hv] at he
        fin_cases he
        decide
    · intro hv
      rw [security_reduces_to_admitExisting args s now hv, hred]

/-- **C6, witness.** A session blocked until 1000, asked again at 900, is
denied with one high-severity `blocked_access_attempt` event. -/
theorem c6_blocked_window_witness :
    validateAndEnforceSecurity ⟨some "global-counter", none⟩
        (some ⟨500, 1, 500, 3, true, some 1000, 0⟩) 900 =
      { outcome := some .blocked,
        session := some ⟨500, 1, 500, 3, true, some 1000, 0⟩,
        events := [⟨.blocked_access_attempt, .high⟩],
        audits := [.blocked] } :=
  ((c6_blocked_window ⟨500, 1, 500, 3, true, some 1000, 0⟩ 1000
      ⟨some "global-counter", none⟩ 900 rfl rfl (by norm_num)).1
    (by norm_num)).2 (by decide)


/-- **C7.** Every counter operation preserves the counter-record
invariant: the stored value stays within [−1000000, 1000000]; an
operation whose outcome is `valueOutOfRange` changes nothing; and a
successful mutation of an existing record increases its version by
exactly 1 (so versions are strictly increasing per name). -/
theorem c7_counter_invariant :
    ∀ (args : Args) (sid : String) (now : ℚ) (store : Option CounterRecord),
    (∀ c, store = some c → valueInRange c) →
    ((∀ r, (incrementCounterLogic args sid store now).store = some r →
        valueInRange r) ∧
     ((incrementCounterLogic args sid store now).outcome = .valueOutOfRange →
        (incrementCounterLogic args sid store now).store = store) ∧
     (∀ c r, store = some c →
        (incrementCounterLogic args sid store now).outcome = .ok r →
        r.version = c.version + 1 ∧
        (incrementCounterLogic args sid store now).store = some r)) ∧
    ((∀ r, (decrementCounterLogic args sid store now).store = some r →
        valueInRange r) ∧
     ((decrementCounterLogic args sid store now).outcome = .valueOutOfRange →
        (decrementCounterLogic args sid store now).store = store) ∧
     (∀ c r, store = some c →
        (decrementCounterLogic args sid store now).outcome = .ok r →
        r.version = c.version + 1 ∧
        (decrementCounterLogic args sid store now).store = some r)) ∧
    ((∀ r, (resetCounterLogic sid store now).store = some r → valueInRange r) ∧
     ((resetCounterLogic sid store now).outcome = .valueOutOfRange →
        (resetCounterLogic sid store now).store = store) ∧
     (∀ c r, store = some c →
        (resetCounterLogic sid store now).outcome = .ok r →
        r.version = c.version + 1 ∧
        (resetCounterLogic sid store now).store = some r)) := by
  intro args sid now store h
  cases store with
  | none =>
    refine ⟨⟨?_, ?_, ?_⟩, ⟨?_, ?_, ?_⟩, ⟨?_, ?_, ?_⟩⟩ <;>
      simp [incrementCounterLogic, decrementCounterLogic, resetCounterLogic,
        valueInRange, MIN_COUNTER_VALUE, MAX_COUNTER_VALUE]
  | some c =>
    have hc := h c rfl
    have hrange := hc
    unfold valueInRange MIN_COUNTER_VALUE MAX_COUNTER_VALUE at hrange
    refine ⟨⟨?_, ?_, ?_⟩, ⟨?_, ?_, ?_⟩, ⟨?_, ?_, ?_⟩⟩
    · intro r hr
      dsimp only [incrementCounterLogic] at hr
      split_ifs at hr with h1 h2 <;>
        simp only [Option.some.injEq] at hr <;> subst hr
      · exact hc
      · exact hc
      · rw [not_or] at h2
        unfold MAX_COUNTER_VALUE MIN_COUNTER_VALUE at h2
        unfold valueInRange MIN_COUNTER_VALUE MAX_COUNTER_VALUE
        constructor <;> simp only [] <;> omega
    · intro hout
      dsimp only [incrementCounterLogic] at hout ⊢
      split_ifs at hout ⊢ with h1 h2 <;> simp_all
    · intro c0 r hc0 hout
      simp only [Option.some.injEq] at hc0
      subst hc0
      dsimp only [incrementCounterLogic] at hout ⊢
      split_ifs at hout ⊢ with h1 h2 <;> simp at hout <;> subst hout <;>
        exact ⟨rfl, rfl⟩
    · intro r hr
      dsimp only [decrementCounterLogic] at hr
      split_ifs at hr with h1 h2 <;>
        simp only [Option.some.injEq] at hr <;> subst hr
      · exact hc
      · exact hc
      · rw [not_or] at h2
        unfold MAX_COUNTER_VALUE MIN_COUNTER_VALUE at h2
        unfold valueInRange MIN_COUNTER_VALUE MAX_COUNTER_VALUE
        constructor <;> simp only [] <;> omega
    · intro hout
      dsimp only [decrementCounterLogic] at hout ⊢
      split_ifs at hout ⊢ with h1 h2 <;> simp_all
    · intro c0 r hc0 hout
      simp only [Option.some.injEq] at hc0
      subst hc0
      dsimp only [decrementCounterLogic] at hout ⊢
      split_ifs at hout ⊢ with h1 h2 <;> simp at hout <;> subst hout <;>
        exact ⟨rfl, rfl⟩
    · intro r hr
      dsimp only [resetCounterLogic] at hr
      simp only [Option.some.injEq] at hr
      subst hr
      unfold valueInRange MIN_COUNTER_VALUE MAX_COUNTER_VALUE
      constructor <;> simp only [] <;> omega
    · intro hout
      simp [resetCounterLogic] at hout
    · intro c0 r hc0 hout
      simp only [Option.some.injEq] at hc0
      subst hc0
      simp only [resetCounterLogic, CounterOutcome.ok.injEq] at hout
      subst hout
      exact ⟨rfl, rfl⟩

/-- **C7, witness.** Incrementing a stored counter of value 0, version 0
yields a record inside the allowed range. -/
theorem c7_counter_invariant_witness :
    valueInRange ⟨"global-counter", 1, 50, 1, some "sess"⟩ :=
  ((c7_counter_invariant ⟨some "global-counter", none⟩ "sess" 50
      (some ⟨"global-counter", 0, 0, 0, none⟩)
      (by
        intro c hcs
        obtain rfl := Option.some.inj hcs
        exact ⟨by decide, by decide⟩)).1.1)
    ⟨"global-counter", 1, 50, 1, some "sess"⟩ (by decide)


/-- **C8.** After any sequence of admission evaluations, good-behavior
decays, unblock transitions, and admin block/unblock actions, starting
from no session record, the persisted violation count is never
negative. -/
theorem c8_violation_nonneg :
    ∀ (ops : List SessionOp) (s : Session),
      applySessionOps ops = some s → 0 ≤ s.violationCount := by
  have key : ∀ (ops : List SessionOp) (s0 : Option Session),
      (∀ t, s0 = some t → 0 ≤ t.violationCount) →
      ∀ t, ops.foldl applySessionOp s0 = some t → 0 ≤ t.violationCount := by
    intro ops
    induction ops with
    | nil =>
      intro s0 h t ht
      exact h t ht
    | cons op rest ih =>
      intro s0 h t ht
      exact ih (applySessionOp s0 op)
        (applySessionOp_violation_nonneg s0 op h) t ht
  intro ops s h
  exact key ops none (by intro t ht; cases ht) s h

/-- **C8, witness.** A single request from a fresh session yields the
fresh record, whose violation count is non-negative. -/
theorem c8_violation_nonneg_witness :
    0 ≤ (freshSession 100).violationCount :=
  c8_violation_nonneg [.request ⟨some "global-counter", none⟩ 100]
    (freshSession 100)
    (by
      show applySessionOp none (.request ⟨some "global-counter", none⟩ 100) =
        some (freshSession 100)
      simp [applySessionOp, validateAndEnforceSecurity, nameTruthy,
        validateCounterName_global, expectedVersionInvalid])

/-- **C9, counterexample to the claim as stated.** A non-fresh,
non-blocked session whose stored `lastActivity` is 0 makes a request at
time 30: the gap is 30 ms < 50 ms, yet `detectAutomation` bails out on the
falsy `lastActivity` (`if (!session.lastActivity) return false`), so the
automation branch never runs and the rate-limit branch fires instead. -/
theorem c9_zero_lastActivity_counterexample :
    ((30 : ℚ) - (0 : ℚ) < 50) ∧
    (validateAndEnforceSecurity ⟨some "global-counter", none⟩
        (some ⟨0, 1, 0, 0, false, none, 0⟩) 30).events =
      [⟨.rate_limit, .medium⟩] ∧
    (validateAndEnforceSecurity ⟨some "global-counter", none⟩
        (some ⟨0, 1, 0, 0, false, none, 0⟩) 30).outcome =
      some .rate_limited := by
  refine ⟨by norm_num, ?_, ?_⟩ <;>
    norm_num [validateAndEnforceSecurity, admitExisting, evalSession,
      detectAutomation, blockUntilTruthy, nameTruthy, validateCounterName_global,
      expectedVersionInvalid, jsMax, RATE_LIMIT_WINDOW, RATE_LIMIT_DELAY,
      MAX_REQUESTS, AUTOMATION_DETECTION_THRESHOLD, VIOLATION_THRESHOLD]

/-- **C9 (amended).** For every non-fresh, non-blocked session whose
stored `lastActivity` is nonzero, and every request passing input
validation: a gap `now − lastActivity < 50` ms is handled by the
automation branch — the first logged event is `automation_detected` of
severity high, the result is `blocked` or `rate_limited`, and no
`rate_limit` event is logged; and a `rate_limit` (medium) event is logged
exactly when `50 ≤ now − lastActivity < 100`.  (A session with
`lastActivity = 0` skips automation detection entirely, see the
counterexample.) -/
theorem c9_automation_precedence :
    ∀ (s : Session) (args : Args) (now : ℚ),
    s.isBlocked = false → s.lastActivity ≠ 0 → inputValid args = true →
    ((now - s.lastActivity < 50 →
        (validateAndEnforceSecurity args (some s) now).events.head? =
          some ⟨.automation_detected, .high⟩ ∧
        ((validateAndEnforceSecurity args (some s) now).outcome = some .blocked ∨
         (validateAndEnforceSecurity args (some s) now).outcome =
           some .rate_limited) ∧
        (∀ e ∈ (validateAndEnforceSecurity args (some s) now).events,
          e.eventType ≠ .rate_limit)) ∧
     ((⟨.rate_limit, .medium⟩ : SecurityEvent) ∈
          (validateAndEnforceSecurity args (some s) now).events ↔
        (50 ≤ now - s.lastActivity ∧ now - s.lastActivity < 100))) := by
  intro s args now hb hla hv
  rw [security_active args s now hv hb]
  have hauto : detectAutomation s now =
      decide (now - s.lastActivity < AUTOMATION_DETECTION_THRESHOLD) := by
    unfold detectAutomation
    rw [if_neg hla]
  constructor
  · intro h50
    dsimp only [evalSession]
    rw [hauto]
    simp only [decide_eq_true_eq, AUTOMATION_DETECTION_THRESHOLD]
    split_ifs with hcond <;>
      first
        | exact ⟨rfl, Or.inl rfl, by intro e he; fin_cases he <;> decide⟩
        | exact ⟨rfl, Or.inr rfl, by intro e he; fin_cases he <;> decide⟩
        | exact absurd h50 hcond
  · dsimp only [evalSession]
    rw [hauto]
    simp only [decide_eq_true_eq, AUTOMATION_DETECTION_THRESHOLD, RATE_LIMIT_DELAY,
      RATE_LIMIT_WINDOW, MAX_REQUESTS, VIOLATION_THRESHOLD]
    split_ifs <;> constructor <;> intro hx <;>
      first
        | (exfalso
           revert hx
           simp
           done)
        | exact List.mem_cons_self _ _
        | (refine ⟨?_, ?_⟩ <;> linarith)
        | (exfalso
           linarith [hx.1, hx.2])

/-- **C9, witness.** A session last active at 1000, asked again at 1030
(30 ms gap, nonzero lastActivity): the first event logged is
`automation_detected` of severity high. -/
theorem c9_automation_precedence_witness :
    (validateAndEnforceSecurity ⟨some "global-counter", none⟩
        (some ⟨1000, 1, 1000, 0, false, none, 0⟩) 1030).events.head? =
      some ⟨.automation_detected, .high⟩ :=
  (((c9_automation_precedence ⟨1000, 1, 1000, 0, false, none, 0⟩
      ⟨some "global-counter", none⟩ 1030 rfl (by norm_num) (by decide)).1
    (by norm_num)).1)

end DigitalTwin
